import Mathlib

/-!
Shallow embedding of the pareto-oracle-bot-v1 core (src/oracle/bot.py and
src/oracle/api.py) in Lean 4.

Python floats are modelled as rationals (ℚ); Python `round(x, n)` is modelled
as round-half-to-even at `n` decimal digits, which is CPython's rounding of a
value to `n` decimals.  Fallible calls return `Option`/`Except`; an uncaught
Python exception is an `Except.error`.  Stateful methods are modelled as pure
state transformers returning the (possibly unchanged) state together with the
outcome, so that a `raise` before any mutation leaves the state component
exactly as it was.
-/

set_option allowUnsafeReducibility true in
attribute [semireducible] Rat.mul Rat.add Rat.sub Rat.inv Rat.ofScientific

/-- Precision constant `PRICE_PRECISION = 3` from bot.py. -/
def PRICE_PRECISION : ℕ := 3

/-- Precision constant `INTEREST_PRECISION = 6` from bot.py. -/
def INTEREST_PRECISION : ℕ := 6

/-- Round a rational to the nearest integer, ties to even: the rounding CPython
applies in `round(x, n)` (after scaling by `10^n`). -/
def roundHalfEven (x : ℚ) : ℤ :=
  let f : ℤ := x.floor
  let frac : ℚ := x - (f : ℚ)
  if frac < 1/2 then f
  else if 1/2 < frac then f + 1
  else if f % 2 = 0 then f else f + 1

/-- Model of Python `round(x, n)`: round half to even at `n` decimal places. -/
def pyRound (x : ℚ) (n : ℕ) : ℚ :=
  (roundHalfEven (x * ((10 ^ n : ℕ) : ℚ)) : ℚ) / ((10 ^ n : ℕ) : ℚ)

/-- Insert into a sorted list, keeping it sorted (helper for `pySorted`). -/
def insertSorted (x : ℚ) : List ℚ → List ℚ
  | [] => [x]
  | y :: ys => if x ≤ y then x :: y :: ys else y :: insertSorted x ys

/-- Model of Python `sorted(data)`: the ascending sort of the list. -/
def pySorted : List ℚ → List ℚ
  | [] => []
  | x :: xs => insertSorted x (pySorted xs)

/-- Model of Python `statistics.median(data)`: sort; for odd length take the
middle element, for even length the arithmetic mean of the two middle elements.
(`statistics.median` raises on an empty list; every caller in bot.py guards
against that case, so the junk value returned here at `[]` is never used.) -/
def median (data : List ℚ) : ℚ :=
  let s := pySorted data
  let n := data.length
  if n % 2 = 1 then s.getD (n / 2) 0
  else (s.getD (n / 2 - 1) 0 + s.getD (n / 2) 0) / 2

/-- Embedding of `OracleBot.get_spot_price` (bot.py lines 136-160).  The
argument is the list of per-source results of `source.get_data(underlying)`
(`none` = the source returned `None`).  Returns `none` for `(None, False)` and
`some v` for `(v, True)`. -/
def OracleBot.get_spot_price (readings : List (Option ℚ)) : Option ℚ :=
  let prices := readings.filterMap id
  if prices.length = 0 then none
  else
    let data := if 1 < prices.length then median prices else prices.headD 0
    some (pyRound data PRICE_PRECISION)

/-- Embedding of `OracleBot.get_interest_rate` (bot.py lines 162-184), same
shape as `get_spot_price` but rounding to `INTEREST_PRECISION`. -/
def OracleBot.get_interest_rate (readings : List (Option ℚ)) : Option ℚ :=
  let rates := readings.filterMap id
  if rates.length = 0 then none
  else
    let data := if 1 < rates.length then median rates else rates.headD 0
    some (pyRound data INTEREST_PRECISION)

example : OracleBot.get_spot_price [some 100, some 101, some 99] = some 100 := by decide
example : OracleBot.get_spot_price [some 100, some 102] = some 101 := by decide
example : OracleBot.get_spot_price [none, none] = none := by decide

/-- Model of the JSON response of the pricing service, as far as
`OracleBot.get_mark_price` (bot.py lines 94-134) inspects it.  `hasMessage`,
`hasCall`, `hasPut` model the Python `in` key tests; each list entry is the
result of `float(x)` on the corresponding raw entry (`none` = `float` raises,
i.e. a non-numeric entry). -/
structure MarkResponse where
  status_code : ℤ
  hasMessage : Bool
  hasCall : Bool
  hasPut : Bool
  call : List (Option ℚ)
  put : List (Option ℚ)
deriving DecidableEq

/-- Model of the Python list comprehension `[float(x) for x in marks]`: the
parsed values, or `Except.error` if `float` raises on any entry. -/
def parseFloats : List (Option ℚ) → Except Unit (List ℚ)
  | [] => Except.ok []
  | none :: _ => Except.error ()
  | some x :: xs =>
    match parseFloats xs with
    | Except.ok ys => Except.ok (x :: ys)
    | Except.error e => Except.error e

/-- Embedding of `OracleBot.get_mark_price` (bot.py lines 94-134).
`Except.ok none` is the Python return `(None, None, False)`;
`Except.ok (some (calls, puts))` is `(call_marks, put_marks, True)`;
`Except.error ()` is an uncaught exception raised while parsing an entry
(there is no try/except around `round(float(x), PRICE_PRECISION)`). -/
def OracleBot.get_mark_price (resp : MarkResponse) :
    Except Unit (Option (List ℚ × List ℚ)) :=
  if resp.status_code ≠ 200 then Except.ok none
  else if resp.hasMessage then
    if resp.hasCall = false ∨ resp.hasPut = false then Except.ok none
    else
      match parseFloats resp.call, parseFloats resp.put with
      | Except.ok cs, Except.ok ps =>
        Except.ok (some (cs.map (fun x => pyRound x PRICE_PRECISION),
                         ps.map (fun x => pyRound x PRICE_PRECISION)))
      | _, _ => Except.error ()
  else Except.ok none

/-- Cache of a `BaseAPI` quote source for one base token: `cached_time` and
`cached_data` start at the defaultdict default `0` (api.py lines 28-29). -/
structure CacheState where
  cached_time : ℤ
  cached_data : ℚ
deriving DecidableEq

/-- Embedding of `BaseAPI.get_data` (api.py lines 52-73) for one base token.
`now` is the first `get_time()` call, `now2` the second one (line 68).
`fetchRes` models the live HTTP fetch: `none` = transport failure (`r.ok`
false), `some pr` = transport success with `pr` the `parse_response` result
(`none` = parse failure).  Returns the new cache state and the value returned
to the caller (`none` = the Python `None`). -/
def BaseAPI.get_data (min_wait_sec : ℤ) (st : CacheState) (now now2 : ℤ)
    (fetchRes : Option (Option ℚ)) : CacheState × Option ℚ :=
  if now - st.cached_time < min_wait_sec then (st, some st.cached_data)
  else
    match fetchRes with
    | none => (st, none)
    | some pr =>
      match pr with
      | some data => (⟨now2, data⟩, some data)
      | none => (st, none)

/-- Cache of the `CompoundV2API` source (api.py lines 153-157).  Unlike
`BaseAPI`, its `get_data` stores the raw `parse_response` result, which can be
Python `None`; hence `cached_data : Option ℚ` (initially `some 0`). -/
structure RateCacheState where
  cached_time : ℤ
  cached_data : Option ℚ
deriving DecidableEq

/-- Embedding of `CompoundV2API.get_data` (api.py lines 176-193).  Same input
conventions as `BaseAPI.get_data`.  Note: on transport success the cache is
updated with the `parse_response` result even when that result is `None`
(there is no `is not None` guard in this override, unlike api.py line 67). -/
def CompoundV2API.get_data (min_wait_sec : ℤ) (st : RateCacheState)
    (now now2 : ℤ) (fetchRes : Option (Option ℚ)) : RateCacheState × Option ℚ :=
  if now - st.cached_time < min_wait_sec then (st, st.cached_data)
  else
    match fetchRes with
    | none => (st, none)
    | some pr => (⟨now2, pr⟩, pr)

/-- One published observation for one asset: the dict stored in
`self.last_post_data[underlying]` (bot.py lines 210-215 and 249-254). -/
structure Snapshot where
  spot_price : ℚ
  interest_rate : ℚ
  call_prices : List ℚ
  put_prices : List ℚ
deriving DecidableEq

/-- Per-asset slice of the `OracleBot` mutable state: `initialized[u]`
(defaultdict, default `False`), and the `last_post_data[u]` / `last_post_time[u]`
dict entries (`none` = key absent). -/
structure AssetEntry where
  initialized : Bool
  last_post_data : Option Snapshot
  last_post_time : Option ℤ
deriving DecidableEq

/-- The `OracleBot` configuration fields used by the polling cycle
(bot.py lines 88-92). -/
structure BotConfig where
  deploy : Bool
  max_move_perc : ℚ
  post_rate : ℤ
deriving DecidableEq

/-- An uncaught Python exception escaping a bot method. -/
inductive PyExn where
  | assertionError
  | keyError
  | zeroDivisionError
  | valueError
deriving DecidableEq

/-- The outcome of one successful `get_data` cycle: whether a publish branch
was taken (bookkeeping updated), and the data passed to `self.post` when it
was invoked (`none` when `deploy` is false or no publish happened). -/
structure CycleOutcome where
  published : Bool
  posted : Option Snapshot
deriving DecidableEq

/-- The environment of one cycle's call to the pricing backend: the result of
`get_mark_price` as a function of the (possibly fallback) spot and rate it is
called with. -/
def MarkFun : Type := ℚ → ℚ → Except Unit (Option (List ℚ × List ℚ))

/-- The candidate snapshot dict built at bot.py lines 249-254, from the
fresh aggregated values where available (`some`) and the last published
values otherwise (the fallback assignments at lines 235-236, 239-240,
245-247). -/
def candidate (last : Snapshot) (spotRes rateRes : Option ℚ)
    (m : Option (List ℚ × List ℚ)) : Snapshot :=
  { spot_price := spotRes.getD last.spot_price
    interest_rate := rateRes.getD last.interest_rate
    call_prices := (m.map Prod.fst).getD last.call_prices
    put_prices := (m.map Prod.snd).getD last.put_prices }

/-- Embedding of one call of `OracleBot.get_data` (bot.py lines 220-284) for
one asset.  `spotRes` / `rateRes` are the results of `get_spot_price` /
`get_interest_rate` (`none` = `success` false); `markRes` gives the result of
`get_mark_price` at the spot/rate it is invoked with.  Returns the asset state
after the call (unchanged when an exception is raised, since no state mutation
precedes any raise point) and either the cycle outcome or the escaped
exception. -/
def OracleBot.get_data (cfg : BotConfig) (st : AssetEntry) (cur_time : ℤ)
    (spotRes rateRes : Option ℚ) (markRes : MarkFun) :
    AssetEntry × Except PyExn CycleOutcome :=
  if st.initialized = false then (st, Except.error PyExn.assertionError)
  else
    match st.last_post_data, st.last_post_time with
    | some last, some last_time =>
      let spot_price := spotRes.getD last.spot_price
      let interest_rate := rateRes.getD last.interest_rate
      match markRes spot_price interest_rate with
      | Except.error _ => (st, Except.error PyExn.valueError)
      | Except.ok m =>
        let data := candidate last spotRes rateRes m
        if last.spot_price = 0 then (st, Except.error PyExn.zeroDivisionError)
        else
          let spot_move := |(spot_price - last.spot_price) / last.spot_price|
          if cfg.post_rate < cur_time - last_time then
            (⟨true, some data, some cur_time⟩,
             Except.ok ⟨true, if cfg.deploy then some data else none⟩)
          else if cfg.max_move_perc ≤ spot_move then
            (⟨true, some data, some cur_time⟩,
             Except.ok ⟨true, if cfg.deploy then some data else none⟩)
          else (st, Except.ok ⟨false, none⟩)
    | _, _ => (st, Except.error PyExn.keyError)

/-- Exception escaping `OracleBot.initialize`. -/
inductive InitExn where
  | assertionError
  | spotFailure
  | rateFailure
  | markFailure
  | valueError
deriving DecidableEq

/-- Embedding of `OracleBot.initialize` (bot.py lines 186-218), named
`initAsset` here.  `now` is the `get_time()` result at line 217.  Every raise
happens before the state writes at lines 216-218, so on `Except.error` the
returned state is the input state unchanged. -/
def OracleBot.initAsset (st : AssetEntry) (now : ℤ)
    (spotRes rateRes : Option ℚ) (markRes : MarkFun) :
    AssetEntry × Except InitExn Unit :=
  if st.initialized then (st, Except.error InitExn.assertionError)
  else
    match spotRes with
    | none => (st, Except.error InitExn.spotFailure)
    | some spot =>
      match rateRes with
      | none => (st, Except.error InitExn.rateFailure)
      | some rate =>
        match markRes spot rate with
        | Except.error _ => (st, Except.error InitExn.valueError)
        | Except.ok none => (st, Except.error InitExn.markFailure)
        | Except.ok (some (c, p)) =>
          (⟨true, some ⟨spot, rate, c, p⟩, some now⟩, Except.ok ())

/-- Embedding of the entry check of `OracleBot.run` (bot.py lines 328-334):
`run` raises before entering its loop exactly when the asset is not
initialized. -/
def OracleBot.run_check (st : AssetEntry) : Except Unit Unit :=
  if st.initialized = false then Except.error () else Except.ok ()

/-- Whether a `get_data` call took a publish branch (heartbeat or movement),
i.e. replaced the per-asset bookkeeping and, if `deploy` is set, invoked
`post`. -/
def didPublish (r : AssetEntry × Except PyExn CycleOutcome) : Bool :=
  match r.2 with
  | Except.ok o => o.published
  | Except.error _ => false

/-- Iterate `get_data` over a list of cycle inputs
`(cur_time, spotRes, rateRes, markRes)`, threading the asset state:
the steady-state loop of `OracleBot.run` (bot.py lines 336-338). -/
def runCycles (cfg : BotConfig) :
    AssetEntry → List (ℤ × Option ℚ × Option ℚ × MarkFun) → AssetEntry
  | st, [] => st
  | st, i :: rest =>
    runCycles cfg (OracleBot.get_data cfg st i.1 i.2.1 i.2.2.1 i.2.2.2).1 rest

/-- Closed form of a `get_data` cycle on an initialized asset whose pricing
call does not raise: the cycle fails on a zero last spot price, publishes when
the heartbeat or the movement trigger fires, and is a no-op otherwise. -/
theorem get_data_eq (cfg : BotConfig) (last : Snapshot) (lt t : ℤ)
    (sr rr : Option ℚ) (mr : MarkFun) (m : Option (List ℚ × List ℚ))
    (hm : mr (sr.getD last.spot_price) (rr.getD last.interest_rate) = Except.ok m) :
    OracleBot.get_data cfg ⟨true, some last, some lt⟩ t sr rr mr =
      if last.spot_price = 0 then
        (⟨true, some last, some lt⟩, Except.error PyExn.zeroDivisionError)
      else if cfg.post_rate < t - lt ∨
          cfg.max_move_perc ≤
            |(sr.getD last.spot_price - last.spot_price) / last.spot_price| then
        (⟨true, some (candidate last sr rr m), some t⟩,
         Except.ok ⟨true, if cfg.deploy then some (candidate last sr rr m) else none⟩)
      else (⟨true, some last, some lt⟩, Except.ok ⟨false, none⟩) := by
  simp only [OracleBot.get_data]
  rw [hm]
  by_cases h0 : last.spot_price = 0
  · simp [h0]
  · by_cases h1 : cfg.post_rate < t - lt
    · simp [h0, h1]
    · by_cases h2 : cfg.max_move_perc ≤
          |(sr.getD last.spot_price - last.spot_price) / last.spot_price|
      · simp [h0, h1, h2]
      · simp [h0, h1, h2]

/-- Frame property of `get_data`: whenever no publish branch is taken
(including every exceptional exit), the asset state is returned unchanged. -/
theorem get_data_frame (cfg : BotConfig) (st : AssetEntry) (t : ℤ)
    (sr rr : Option ℚ) (mr : MarkFun)
    (h : didPublish (OracleBot.get_data cfg st t sr rr mr) = false) :
    (OracleBot.get_data cfg st t sr rr mr).1 = st := by
  rcases st with ⟨init, d, tm⟩
  cases init
  · simp [OracleBot.get_data]
  · cases d with
    | none => simp [OracleBot.get_data]
    | some last =>
      cases tm with
      | none => simp [OracleBot.get_data]
      | some lt =>
        rcases hmr : mr (sr.getD last.spot_price) (rr.getD last.interest_rate)
          with e | m
        · simp only [OracleBot.get_data]
          rw [hmr]
          simp
        · rw [get_data_eq cfg last lt t sr rr mr m hmr] at h ⊢
          by_cases h0 : last.spot_price = 0
          · simp [h0]
          · by_cases hc : cfg.post_rate < t - lt ∨
                cfg.max_move_perc ≤
                  |(sr.getD last.spot_price - last.spot_price) / last.spot_price|
            · simp [h0, hc, didPublish] at h
            · simp [h0, hc]

/-- Claim C1: for every initialized asset and every `get_data` cycle on a
candidate snapshot, last snapshot and last publish time (with a positive last
spot price, so the movement ratio of the claim is the one the code computes,
and a pricing call that does not raise), the cycle publishes — i.e. replaces
the snapshot state and, when `deploy` is set, invokes `post` — if and only if
`now - last_publish_time > post_rate` or `|current.spot - last.spot| /
last.spot ≥ max_move_fraction`; on the complement it does not publish. -/
theorem C1_publication_policy (cfg : BotConfig) (last : Snapshot) (lt t : ℤ)
    (sr rr : Option ℚ) (mr : MarkFun) (m : Option (List ℚ × List ℚ))
    (hm : mr (sr.getD last.spot_price) (rr.getD last.interest_rate) = Except.ok m)
    (hz : 0 < last.spot_price) :
    (didPublish (OracleBot.get_data cfg ⟨true, some last, some lt⟩ t sr rr mr)
        = true ↔
      (cfg.post_rate < t - lt ∨
       cfg.max_move_perc ≤
         |sr.getD last.spot_price - last.spot_price| / last.spot_price)) ∧
    (didPublish (OracleBot.get_data cfg ⟨true, some last, some lt⟩ t sr rr mr)
        = true →
      OracleBot.get_data cfg ⟨true, some last, some lt⟩ t sr rr mr =
        (⟨true, some (candidate last sr rr m), some t⟩,
         Except.ok ⟨true,
           if cfg.deploy then some (candidate last sr rr m) else none⟩)) := by
  have hz' : last.spot_price ≠ 0 := ne_of_gt hz
  rw [get_data_eq cfg last lt t sr rr mr m hm, abs_div, abs_of_pos hz]
  by_cases hc : cfg.post_rate < t - lt ∨
      cfg.max_move_perc ≤
        |sr.getD last.spot_price - last.spot_price| / last.spot_price
  · simp [hz', hc, didPublish]
  · simp [hz', hc, didPublish]

/-- Witness for C1 at a concrete cycle: heartbeat elapsed, so it publishes. -/
theorem C1_publication_policy_witness :
    didPublish (OracleBot.get_data ⟨false, 1/100, 60⟩
      ⟨true, some ⟨100, 2, [5], [6]⟩, some 0⟩ 100 (some 101) (some 2)
      (fun _ _ => Except.ok none)) = true :=
  (C1_publication_policy ⟨false, 1/100, 60⟩ ⟨100, 2, [5], [6]⟩ 0 100
    (some 101) (some 2) (fun _ _ => Except.ok none) none rfl
    (by decide)).1.mpr (Or.inl (by decide))

/-- Claim C2: whenever a cycle decides to publish, the per-asset snapshot
state becomes exactly the candidate snapshot of that cycle and the last
publish time becomes the cycle's current time — and this bookkeeping update is
the same for every value of the `deploy` flag (dry-run included). -/
theorem C2_publish_updates_state (cfg : BotConfig) (last : Snapshot) (lt t : ℤ)
    (sr rr : Option ℚ) (mr : MarkFun) (m : Option (List ℚ × List ℚ))
    (hm : mr (sr.getD last.spot_price) (rr.getD last.interest_rate) = Except.ok m)
    (hp : didPublish (OracleBot.get_data cfg ⟨true, some last, some lt⟩ t sr rr mr)
        = true) :
    ∀ d : Bool,
      (OracleBot.get_data ⟨d, cfg.max_move_perc, cfg.post_rate⟩
          ⟨true, some last, some lt⟩ t sr rr mr).1 =
        ⟨true, some (candidate last sr rr m), some t⟩ := by
  intro d
  rw [get_data_eq cfg last lt t sr rr mr m hm] at hp
  rw [get_data_eq ⟨d, cfg.max_move_perc, cfg.post_rate⟩ last lt t sr rr mr m hm]
  by_cases h0 : last.spot_price = 0
  · simp [h0, didPublish] at hp
  · by_cases hc : cfg.post_rate < t - lt ∨
        cfg.max_move_perc ≤
          |(sr.getD last.spot_price - last.spot_price) / last.spot_price|
    · simp [h0, hc]
    · simp [h0, hc, didPublish] at hp

/-- Witness for C2 at a concrete publishing cycle, in dry-run mode. -/
theorem C2_publish_updates_state_witness :
    (OracleBot.get_data ⟨false, 1/100, 60⟩
        ⟨true, some ⟨100, 2, [5], [6]⟩, some 0⟩ 100 (some 101) none
        (fun _ _ => Except.ok (some ([7], [8])))).1 =
      ⟨true, some ⟨101, 2, [7], [8]⟩, some 100⟩ :=
  C2_publish_updates_state ⟨false, 1/100, 60⟩ ⟨100, 2, [5], [6]⟩ 0 100
    (some 101) none (fun _ _ => Except.ok (some ([7], [8])))
    (some ([7], [8])) rfl (by decide) false

/-- Claim C7: if the last published spot price is zero, the movement division
raises and the exception escapes the cycle (fatal, never swallowed) with no
publish decision made and the state untouched; if it is nonzero and the
pricing call does not raise, the cycle's division is well defined and the
cycle returns an outcome. -/
theorem C7_zero_last_spot (cfg : BotConfig) (last : Snapshot) (lt t : ℤ)
    (sr rr : Option ℚ) (mr : MarkFun) (m : Option (List ℚ × List ℚ))
    (hm : mr (sr.getD last.spot_price) (rr.getD last.interest_rate) = Except.ok m) :
    (last.spot_price = 0 →
      OracleBot.get_data cfg ⟨true, some last, some lt⟩ t sr rr mr =
        (⟨true, some last, some lt⟩, Except.error PyExn.zeroDivisionError)) ∧
    (last.spot_price ≠ 0 →
      ∃ o, (OracleBot.get_data cfg ⟨true, some last, some lt⟩ t sr rr mr).2 =
        Except.ok o) := by
  rw [get_data_eq cfg last lt t sr rr mr m hm]
  constructor
  · intro h0
    simp [h0]
  · intro h0
    by_cases hc : cfg.post_rate < t - lt ∨
        cfg.max_move_perc ≤
          |(sr.getD last.spot_price - last.spot_price) / last.spot_price|
    · exact ⟨⟨true, if cfg.deploy then some (candidate last sr rr m) else none⟩,
        by simp [h0, hc]⟩
    · exact ⟨⟨false, none⟩, by simp [h0, hc]⟩

/-- Claim C9: a cycle in which the publication policy does not publish leaves
the per-asset snapshot state and last publish time completely unchanged; and
iterating any number of cycles with zero spot movement while the heartbeat
never elapses (with a positive movement threshold) never mutates the snapshot
state. -/
theorem C9_no_publish_frame :
    (∀ (cfg : BotConfig) (st : AssetEntry) (t : ℤ) (sr rr : Option ℚ)
       (mr : MarkFun),
      didPublish (OracleBot.get_data cfg st t sr rr mr) = false →
      (OracleBot.get_data cfg st t sr rr mr).1 = st) ∧
    (∀ (cfg : BotConfig) (last : Snapshot) (lt : ℤ)
       (inputs : List (ℤ × Option ℚ × Option ℚ × MarkFun)),
      0 < cfg.max_move_perc →
      (∀ i ∈ inputs, i.2.1.getD last.spot_price = last.spot_price ∧
        i.1 - lt ≤ cfg.post_rate) →
      runCycles cfg ⟨true, some last, some lt⟩ inputs =
        ⟨true, some last, some lt⟩) := by
  constructor
  · exact fun cfg st t sr rr mr h => get_data_frame cfg st t sr rr mr h
  · intro cfg last lt inputs hmax hin
    induction inputs with
    | nil => rfl
    | cons i rest ih =>
      obtain ⟨hs, ht⟩ := hin i (List.mem_cons_self i rest)
      have hstep : (OracleBot.get_data cfg ⟨true, some last, some lt⟩
          i.1 i.2.1 i.2.2.1 i.2.2.2).1 = (⟨true, some last, some lt⟩ : AssetEntry) := by
        rcases hmr : i.2.2.2 (i.2.1.getD last.spot_price)
            (i.2.2.1.getD last.interest_rate) with e | m
        · simp only [OracleBot.get_data]
          rw [hmr]
          simp
        · rw [get_data_eq cfg last lt i.1 i.2.1 i.2.2.1 i.2.2.2 m hmr]
          by_cases h0 : last.spot_price = 0
          · simp [h0]
          · have hlt : ¬ cfg.post_rate < i.1 - lt := not_lt.mpr ht
            have hmv : ¬ cfg.max_move_perc ≤
                |(i.2.1.getD last.spot_price - last.spot_price) / last.spot_price| := by
              rw [hs, sub_self, zero_div, abs_zero]
              exact not_le.mpr hmax
            simp [h0, hlt, hmv]
      simp only [runCycles]
      rw [hstep]
      exact ih (fun j hj => hin j (List.mem_cons_of_mem i hj))

/-- Witness for C9: two quiet cycles (one with every spot source down, one
reading the unchanged spot price) leave the state exactly as it was. -/
theorem C9_no_publish_frame_witness :
    runCycles ⟨true, 1/100, 60⟩ ⟨true, some ⟨100, 2, [5], [6]⟩, some 0⟩
      [(10, none, none, fun _ _ => Except.ok none),
       (20, some 100, some 3, fun _ _ => Except.ok (some ([7], [8])))] =
      ⟨true, some ⟨100, 2, [5], [6]⟩, some 0⟩ :=
  C9_no_publish_frame.2 ⟨true, 1/100, 60⟩ ⟨100, 2, [5], [6]⟩ 0
    [(10, none, none, fun _ _ => Except.ok none),
     (20, some 100, some 3, fun _ _ => Except.ok (some ([7], [8])))]
    (by decide)
    (by
      intro i hi
      simp only [List.mem_cons, List.not_mem_nil, or_false] at hi
      rcases hi with h | h <;> subst h <;> exact ⟨by decide, by decide⟩)

/-- Claim C10: when spot aggregation fails, the candidate spot price equals
the last published spot price exactly, the computed movement is exactly zero,
and (for any positive movement threshold) the cycle can publish only through
the heartbeat trigger. -/
theorem C10_spot_fallback_heartbeat_only (cfg : BotConfig) (last : Snapshot)
    (lt t : ℤ) (rr : Option ℚ) (mr : MarkFun) (m : Option (List ℚ × List ℚ))
    (hm : mr last.spot_price (rr.getD last.interest_rate) = Except.ok m)
    (hz : last.spot_price ≠ 0) (hmax : 0 < cfg.max_move_perc) :
    (candidate last none rr m).spot_price = last.spot_price ∧
    |((none : Option ℚ).getD last.spot_price - last.spot_price) /
        last.spot_price| = 0 ∧
    (didPublish (OracleBot.get_data cfg ⟨true, some last, some lt⟩
        t none rr mr) = true ↔ cfg.post_rate < t - lt) := by
  have hmv : ¬ cfg.max_move_perc ≤
      |((none : Option ℚ).getD last.spot_price - last.spot_price) /
        last.spot_price| := by
    simp only [Option.getD_none, sub_self, zero_div, abs_zero]
    exact not_le.mpr hmax
  refine ⟨rfl, by simp, ?_⟩
  rw [get_data_eq cfg last lt t none rr mr m hm]
  by_cases hh : cfg.post_rate < t - lt
  · simp [hz, hh, didPublish]
  · have hmv0 : ¬ cfg.max_move_perc ≤ 0 := not_le.mpr hmax
    simp [hz, hh, hmv0, didPublish]

/-- Witness for C10: with every spot source down, a heartbeat-elapsed cycle
still publishes. -/
theorem C10_spot_fallback_heartbeat_only_witness :
    didPublish (OracleBot.get_data ⟨true, 1/100, 60⟩
      ⟨true, some ⟨100, 2, [5], [6]⟩, some 0⟩ 100 none (some 3)
      (fun _ _ => Except.ok (some ([7], [8])))) = true :=
  (C10_spot_fallback_heartbeat_only ⟨true, 1/100, 60⟩ ⟨100, 2, [5], [6]⟩ 0 100
    (some 3) (fun _ _ => Except.ok (some ([7], [8]))) (some ([7], [8]))
    rfl (by decide) (by decide)).2.2.mpr (by decide)

/-- Claim C4: on an initialized asset (nonzero last spot, pricing call not
raising) the cycle always completes with an outcome; the candidate snapshot
uses the fresh aggregated spot/rate and fresh call/put sequences where
available and the last published values otherwise; and a publishing cycle
installs exactly that candidate. -/
theorem C4_cycle_fallback (cfg : BotConfig) (last : Snapshot) (lt t : ℤ)
    (sr rr : Option ℚ) (mr : MarkFun) (m : Option (List ℚ × List ℚ))
    (hm : mr (sr.getD last.spot_price) (rr.getD last.interest_rate) = Except.ok m)
    (hz : last.spot_price ≠ 0) :
    (∃ o, (OracleBot.get_data cfg ⟨true, some last, some lt⟩ t sr rr mr).2 =
      Except.ok o) ∧
    (sr = none → (candidate last sr rr m).spot_price = last.spot_price) ∧
    (∀ v, sr = some v → (candidate last sr rr m).spot_price = v) ∧
    (rr = none → (candidate last sr rr m).interest_rate = last.interest_rate) ∧
    (∀ v, rr = some v → (candidate last sr rr m).interest_rate = v) ∧
    (m = none → (candidate last sr rr m).call_prices = last.call_prices ∧
      (candidate last sr rr m).put_prices = last.put_prices) ∧
    (∀ c p, m = some (c, p) → (candidate last sr rr m).call_prices = c ∧
      (candidate last sr rr m).put_prices = p) ∧
    (didPublish (OracleBot.get_data cfg ⟨true, some last, some lt⟩ t sr rr mr)
        = true →
      (OracleBot.get_data cfg ⟨true, some last, some lt⟩
        t sr rr mr).1.last_post_data = some (candidate last sr rr m)) := by
  refine ⟨?_, ?_, ?_, ?_, ?_, ?_, ?_, ?_⟩
  · rw [get_data_eq cfg last lt t sr rr mr m hm]
    by_cases hc : cfg.post_rate < t - lt ∨
        cfg.max_move_perc ≤
          |(sr.getD last.spot_price - last.spot_price) / last.spot_price|
    · exact ⟨⟨true, if cfg.deploy then some (candidate last sr rr m) else none⟩,
        by simp [hz, hc]⟩
    · exact ⟨⟨false, none⟩, by simp [hz, hc]⟩
  · intro h; subst h; simp [candidate]
  · intro v h; subst h; simp [candidate]
  · intro h; subst h; simp [candidate]
  · intro v h; subst h; simp [candidate]
  · intro h; subst h; simp [candidate]
  · intro c p h; subst h; simp [candidate]
  · intro hp
    rw [get_data_eq cfg last lt t sr rr mr m hm] at hp ⊢
    by_cases hc : cfg.post_rate < t - lt ∨
        cfg.max_move_perc ≤
          |(sr.getD last.spot_price - last.spot_price) / last.spot_price|
    · simp [hz, hc]
    · simp [hz, hc, didPublish] at hp

/-- Witness for C4: a cycle with every spot source down and a failed pricing
call completes, and its candidate falls back to the published values. -/
theorem C4_cycle_fallback_witness :
    ∃ o, (OracleBot.get_data ⟨true, 1/100, 60⟩
      ⟨true, some ⟨100, 2, [5], [6]⟩, some 0⟩ 10 none (some 3)
      (fun _ _ => Except.ok none)).2 = Except.ok o :=
  (C4_cycle_fallback ⟨true, 1/100, 60⟩ ⟨100, 2, [5], [6]⟩ 0 10 none (some 3)
    (fun _ _ => Except.ok none) none rfl (by decide)).1

/-- Claim C3: aggregation over the successful readings of a pool returns
failure for zero readings, the single reading (rounded) for one reading, and
the statistical median (mean of the two middle values for an even count,
via `median`) rounded to the quantity's precision — 3 decimals for spot,
6 for rate — for more than one reading. -/
theorem C3_aggregation (rs : List (Option ℚ)) :
    ((rs.filterMap id).length = 0 →
      OracleBot.get_spot_price rs = none ∧
      OracleBot.get_interest_rate rs = none) ∧
    (∀ x, rs.filterMap id = [x] →
      OracleBot.get_spot_price rs = some (pyRound x PRICE_PRECISION) ∧
      OracleBot.get_interest_rate rs = some (pyRound x INTEREST_PRECISION)) ∧
    (1 < (rs.filterMap id).length →
      OracleBot.get_spot_price rs =
        some (pyRound (median (rs.filterMap id)) PRICE_PRECISION) ∧
      OracleBot.get_interest_rate rs =
        some (pyRound (median (rs.filterMap id)) INTEREST_PRECISION)) := by
  refine ⟨?_, ?_, ?_⟩
  · intro h
    constructor <;>
      simp [OracleBot.get_spot_price, OracleBot.get_interest_rate, h]
  · intro x h
    constructor <;>
      simp [OracleBot.get_spot_price, OracleBot.get_interest_rate, h]
  · intro h
    have h0 : ¬ (rs.filterMap id).length = 0 := by omega
    constructor <;>
      simp [OracleBot.get_spot_price, OracleBot.get_interest_rate, h, h0]

/-- Witness for C3: three sources up, median of `[100, 101, 99]` is `100`. -/
theorem C3_aggregation_witness :
    OracleBot.get_spot_price [some 100, some 101, some 99] = some 100 := by
  have h := ((C3_aggregation [some 100, some 101, some 99]).2.2 (by decide)).1
  rw [h]
  decide

/-- Counterexample to claim C5: for the CompoundV2 source, a call whose live
fetch succeeds at transport level but whose payload fails to parse returns no
value, yet the cache entry (both value and timestamp) is overwritten — the
claim's "cache updated only on a fully successful fetch" fails for this
source. -/
theorem C5_counterexample :
    (CompoundV2API.get_data 5 ⟨0, some 0⟩ 100 100 (some none)).2 = none ∧
    (CompoundV2API.get_data 5 ⟨0, some 0⟩ 100 100 (some none)).1 ≠
      ⟨0, some 0⟩ := by
  decide

/-- Claim C5 amended: for the `BaseAPI`-derived spot sources a call returning
no value leaves the cache exactly as it was, and the cache is updated only on
a fully successful fetch; for the `CompoundV2API` rate source transport
failure leaves the cache untouched, but any transport-successful fetch
overwrites the cache with the raw parse result — even when parsing failed and
the call returns no value. -/
theorem C5_amended_cache_policy (mws now now2 : ℤ) :
    (∀ (st : CacheState) (fetchRes : Option (Option ℚ)),
      (BaseAPI.get_data mws st now now2 fetchRes).2 = none →
      (BaseAPI.get_data mws st now now2 fetchRes).1 = st) ∧
    (∀ (st : CacheState) (v : ℚ), ¬ now - st.cached_time < mws →
      BaseAPI.get_data mws st now now2 (some (some v)) = (⟨now2, v⟩, some v)) ∧
    (∀ st : RateCacheState,
      (CompoundV2API.get_data mws st now now2 none).1 = st) ∧
    (∀ (st : RateCacheState) (pr : Option ℚ), ¬ now - st.cached_time < mws →
      CompoundV2API.get_data mws st now now2 (some pr) = (⟨now2, pr⟩, pr)) := by
  refine ⟨?_, ?_, ?_, ?_⟩
  · intro st fetchRes h
    by_cases hc : now - st.cached_time < mws
    · simp [BaseAPI.get_data, hc] at h
    · rcases fetchRes with _ | pr
      · simp [BaseAPI.get_data, hc]
      · rcases pr with _ | v
        · simp [BaseAPI.get_data, hc]
        · simp [BaseAPI.get_data, hc] at h
  · intro st v hc
    simp [BaseAPI.get_data, hc]
  · intro st
    by_cases hc : now - st.cached_time < mws <;>
      simp [CompoundV2API.get_data, hc]
  · intro st pr hc
    simp [CompoundV2API.get_data, hc]

/-- Witness for the amended C5: a successful fetch stores the value with the
second timestamp, and a transport-failed CompoundV2 fetch changes nothing. -/
theorem C5_amended_cache_policy_witness :
    BaseAPI.get_data 5 ⟨0, 0⟩ 100 101 (some (some 42)) = (⟨101, 42⟩, some 42) ∧
    (CompoundV2API.get_data 5 ⟨7, some 3⟩ 100 101 none).1 = ⟨7, some 3⟩ :=
  ⟨(C5_amended_cache_policy 5 100 101).2.1 ⟨0, 0⟩ 42 (by decide),
   (C5_amended_cache_policy 5 100 101).2.2.1 ⟨7, some 3⟩⟩

/-- Parsing a list of entries that all parse succeeds with exactly those
values. -/
theorem parseFloats_map_some (l : List ℚ) :
    parseFloats (l.map some) = Except.ok l := by
  induction l with
  | nil => rfl
  | cons x xs ih => simp [parseFloats, ih]

/-- Parsing a list containing a non-numeric entry raises. -/
theorem parseFloats_error_of_mem (l : List (Option ℚ)) (h : none ∈ l) :
    parseFloats l = Except.error () := by
  induction l with
  | nil => cases h
  | cons x xs ih =>
    cases x with
    | none => rfl
    | some v =>
      have hx : none ∈ xs := by
        rcases List.mem_cons.mp h with h1 | h1
        · exact absurd h1 (by simp)
        · exact h1
      simp [parseFloats, ih hx]

/-- Counterexample to claim C6: on a 200 response whose call sequence holds a
non-numeric entry, `get_mark_price` raises an uncaught exception rather than
returning failure (or any `(call, put, success)` triple). -/
theorem C6_counterexample :
    OracleBot.get_mark_price ⟨200, true, true, true, [none], [some 1]⟩ =
      Except.error () ∧
    ∀ r, OracleBot.get_mark_price ⟨200, true, true, true, [none], [some 1]⟩ ≠
      Except.ok r := by
  have he : OracleBot.get_mark_price ⟨200, true, true, true, [none], [some 1]⟩ =
      Except.error () := rfl
  exact ⟨he, fun r h => by rw [he] at h; exact Except.noConfusion h⟩

/-- Claim C6 amended: a non-200 status or a payload missing the message, call
or put key returns failure (`success=false`); when every entry of both
sequences parses, the call succeeds with each entry rounded to 3 decimals; but
a non-numeric entry makes the exception escape the whole call — it is
neither a per-element result nor a `success=false` return. -/
theorem C6_amended_mark_price (resp : MarkResponse) :
    (resp.status_code ≠ 200 →
      OracleBot.get_mark_price resp = Except.ok none) ∧
    (resp.hasMessage = false →
      OracleBot.get_mark_price resp = Except.ok none) ∧
    (resp.hasCall = false ∨ resp.hasPut = false →
      OracleBot.get_mark_price resp = Except.ok none) ∧
    (∀ cs ps, resp.call = List.map some cs → resp.put = List.map some ps →
      resp.status_code = 200 → resp.hasMessage = true → resp.hasCall = true →
      resp.hasPut = true →
      OracleBot.get_mark_price resp =
        Except.ok (some (cs.map (fun x => pyRound x PRICE_PRECISION),
                         ps.map (fun x => pyRound x PRICE_PRECISION)))) ∧
    ((none ∈ resp.call ∨ none ∈ resp.put) → resp.status_code = 200 →
      resp.hasMessage = true → resp.hasCall = true → resp.hasPut = true →
      OracleBot.get_mark_price resp = Except.error ()) := by
  refine ⟨?_, ?_, ?_, ?_, ?_⟩
  · intro h
    simp [OracleBot.get_mark_price, h]
  · intro h
    by_cases h200 : resp.status_code = 200 <;>
      simp [OracleBot.get_mark_price, h200, h]
  · intro h
    by_cases h200 : resp.status_code = 200
    · by_cases hmsg : resp.hasMessage
      · rcases h with h | h <;>
          simp [OracleBot.get_mark_price, h200, hmsg, h]
      · simp [OracleBot.get_mark_price, h200, hmsg]
    · simp [OracleBot.get_mark_price, h200]
  · intro cs ps hcs hps h200 hmsg hcall hput
    simp [OracleBot.get_mark_price, h200, hmsg, hcall, hput, hcs, hps,
      parseFloats_map_some]
  · intro h h200 hmsg hcall hput
    rcases h with h | h
    · rcases hq : parseFloats resp.put with e | ps <;>
        simp [OracleBot.get_mark_price, h200, hmsg, hcall, hput,
          parseFloats_error_of_mem resp.call h, hq]
    · rcases hq : parseFloats resp.call with e | cs <;>
        simp [OracleBot.get_mark_price, h200, hmsg, hcall, hput,
          parseFloats_error_of_mem resp.put h, hq]

/-- Witness for the amended C6: a clean 200 payload succeeds with rounded
entries. -/
theorem C6_amended_mark_price_witness :
    OracleBot.get_mark_price ⟨200, true, true, true, [some 1], [some 2]⟩ =
      Except.ok (some ([1], [2])) := by
  have h := (C6_amended_mark_price
      ⟨200, true, true, true, [some 1], [some 2]⟩).2.2.2.1
    [1] [2] rfl rfl rfl rfl rfl rfl
  have h1 : pyRound 1 PRICE_PRECISION = 1 := by decide
  have h2 : pyRound 2 PRICE_PRECISION = 2 := by decide
  rw [h]
  simp [h1, h2]

/-- Claim C8: `initialize` requires the asset to be uninitialized; a failure
to obtain the spot price, the interest rate or the derived valuations aborts
with an exception leaving no partial state (no snapshot, no publish time, no
initialized mark); on success it installs the snapshot, sets the publish time
to now and marks the asset initialized, after which `run` passes its entry
check, while `run` on an uninitialized asset fails at that check. -/
theorem C8_initialization (st : AssetEntry) (now : ℤ) (sr rr : Option ℚ)
    (mr : MarkFun) :
    (st.initialized = true →
      OracleBot.initAsset st now sr rr mr =
        (st, Except.error InitExn.assertionError)) ∧
    (st.initialized = false → sr = none →
      OracleBot.initAsset st now sr rr mr =
        (st, Except.error InitExn.spotFailure)) ∧
    (st.initialized = false → ∀ spot, sr = some spot → rr = none →
      OracleBot.initAsset st now sr rr mr =
        (st, Except.error InitExn.rateFailure)) ∧
    (st.initialized = false → ∀ spot rate, sr = some spot → rr = some rate →
      mr spot rate = Except.ok none →
      OracleBot.initAsset st now sr rr mr =
        (st, Except.error InitExn.markFailure)) ∧
    (∀ e, (OracleBot.initAsset st now sr rr mr).2 = Except.error e →
      (OracleBot.initAsset st now sr rr mr).1 = st) ∧
    ((OracleBot.initAsset st now sr rr mr).2 = Except.ok () →
      ∃ spot rate c p, sr = some spot ∧ rr = some rate ∧
        mr spot rate = Except.ok (some (c, p)) ∧
        (OracleBot.initAsset st now sr rr mr).1 =
          ⟨true, some ⟨spot, rate, c, p⟩, some now⟩ ∧
        OracleBot.run_check (OracleBot.initAsset st now sr rr mr).1 =
          Except.ok ()) ∧
    (st.initialized = false → OracleBot.run_check st = Except.error ()) := by
  refine ⟨?_, ?_, ?_, ?_, ?_, ?_, ?_⟩
  · intro h
    simp [OracleBot.initAsset, h]
  · intro h hs
    subst hs
    simp [OracleBot.initAsset, h]
  · intro h spot hs hr
    subst hs; subst hr
    simp [OracleBot.initAsset, h]
  · intro h spot rate hs hr hmk
    subst hs; subst hr
    simp [OracleBot.initAsset, h, hmk]
  · intro e he
    by_cases h : st.initialized
    · simp [OracleBot.initAsset, h]
    · rcases sr with _ | spot
      · simp [OracleBot.initAsset, h]
      · rcases rr with _ | rate
        · simp [OracleBot.initAsset, h]
        · rcases hmk : mr spot rate with e2 | mo
          · simp [OracleBot.initAsset, h, hmk]
          · rcases mo with _ | ⟨c, p⟩
            · simp [OracleBot.initAsset, h, hmk]
            · simp [OracleBot.initAsset, h, hmk] at he
  · intro he
    by_cases h : st.initialized
    · simp [OracleBot.initAsset, h] at he
    · rcases sr with _ | spot
      · simp [OracleBot.initAsset, h] at he
      · rcases rr with _ | rate
        · simp [OracleBot.initAsset, h] at he
        · rcases hmk : mr spot rate with e2 | mo
          · simp [OracleBot.initAsset, h, hmk] at he
          · rcases mo with _ | ⟨c, p⟩
            · simp [OracleBot.initAsset, h, hmk] at he
            · exact ⟨spot, rate, c, p, rfl, rfl, hmk,
                by simp [OracleBot.initAsset, h, hmk],
                by simp [OracleBot.initAsset, OracleBot.run_check, h, hmk]⟩
  · intro h
    simp [OracleBot.run_check, h]

/-- Witness for C8: a failed first spot fetch aborts with no partial state,
and the uninitialized asset fails the `run` entry check. -/
theorem C8_initialization_witness :
    OracleBot.initAsset ⟨false, none, none⟩ 0 none none
        (fun _ _ => Except.ok none) =
      (⟨false, none, none⟩, Except.error InitExn.spotFailure) ∧
    OracleBot.run_check ⟨false, none, none⟩ = Except.error () :=
  ⟨(C8_initialization ⟨false, none, none⟩ 0 none none
      (fun _ _ => Except.ok none)).2.1 rfl rfl,
   (C8_initialization ⟨false, none, none⟩ 0 none none
      (fun _ _ => Except.ok none)).2.2.2.2.2.2 rfl⟩

/-- Witness for C7 at a concrete cycle with a zero last spot price. -/
theorem C7_zero_last_spot_witness :
    OracleBot.get_data ⟨true, 1/100, 60⟩ ⟨true, some ⟨0, 2, [5], [6]⟩, some 0⟩
        100 (some 101) (some 2) (fun _ _ => Except.ok none) =
      (⟨true, some ⟨0, 2, [5], [6]⟩, some 0⟩,
       Except.error PyExn.zeroDivisionError) :=
  (C7_zero_last_spot ⟨true, 1/100, 60⟩ ⟨0, 2, [5], [6]⟩ 0 100 (some 101)
    (some 2) (fun _ _ => Except.ok none) none rfl).1 rfl
